import Mathlib

/-!
Shallow embedding of `boot.py` (st3fan/sensor-firmware): an ESP32 firmware
that on each boot decides the wake cause, joins Wi-Fi, optionally syncs NTP
time, reads a DHT22 sensor and sends the measurement as a JSON datagram three
times over UDP, then deep-sleeps.

The embedding is a deterministic interpreter parameterised by an `Env`
describing the platform's responses (Wi-Fi association status per
`isconnected()` call, sensor / NTP / `sendto` success, starting clock, the
bytes produced by `uos.urandom(16)` and `machine.unique_id()`). Running the
interpreter yields an event trace (the externally visible actions) and an
`Outcome` (fell through, entered deep sleep, or crashed on an uncaught
exception). The clock is kept in tenths of a second so that the two sleep
constants of the source, `utime.sleep(0.5)` and `utime.sleep(0.1)`, are exact;
`utime.time()` is the clock divided by 10 (whole seconds).
-/

namespace SensorFirmware

/-- The values loaded by `from config import ...` in `boot.py`. -/
structure Config where
  INTERVAL : Nat
  WIFI_NETWORK : String
  WIFI_PASSWORD : String
  SERVER_ADDR : String
  SERVER_PORT : Nat
deriving DecidableEq, Repr

/-- `machine.reset_cause()` values that `main` distinguishes:
`machine.PWRON_RESET`, `machine.DEEPSLEEP_RESET`, and anything else. -/
inductive ResetCause
  | PWRON_RESET
  | DEEPSLEEP_RESET
  | OTHER
deriving DecidableEq, Repr

/-- Python values that `connect` can produce: it either executes
`return True`, or falls off the end of the function, which in Python yields
`None`. `pyFalse` is included to record that `False` is never produced. -/
inductive PyRes
  | pyTrue
  | pyFalse
  | pyNone
deriving DecidableEq, Repr

/-- Python truthiness, as used by `if connect(...):` at both call sites. -/
def truthy : PyRes → Bool
  | PyRes.pyTrue => true
  | _ => false

/-- The environment: every platform response the code consumes during one
boot. `isconnected i` is the result of the i-th call to `nic.isconnected()`
(call 0 is the fast-path check at the top of `connect`); `sendOk i` tells
whether the i-th `s.sendto(...)` call succeeds or raises `OSError`;
`urandom16` is the byte string returned by `uos.urandom(16)`; `clock0` is the
wall clock at entry, in tenths of a second. -/
structure Env where
  cfg : Config
  clock0 : Nat
  uniqueId : List Nat
  urandom16 : List Nat
  isconnected : Nat → Bool
  settimeOk : Bool
  measureOk : Bool
  temperature : Int
  humidity : Int
  sendOk : Nat → Bool

/-- Mutable state threaded through the interpreter: the clock (tenths of a
second), how many `nic.isconnected()` calls happened, and how many
`s.sendto` calls happened. -/
structure St where
  clock : Nat
  wifiCalls : Nat
  sends : Nat
deriving DecidableEq, Repr

/-- The JSON object built inside `send_measurement`'s loop, field for field:
`sensor_id`, `sensor_type`, `sensor_time`, `measurement_id`, and the nested
`measurement_data` (`temperature`, `humidity`). The two identifier fields are
hex strings, produced by `ubinascii.hexlify`. -/
structure Payload where
  sensor_id : String
  sensor_type : String
  sensor_time : Nat
  measurement_id : String
  temperature : Int
  humidity : Int
deriving DecidableEq, Repr

/-- Externally visible actions of one boot, in program order. -/
inductive Event
  | checkWifi (ok : Bool)
  | sleepTenths (t : Nat)
  | settimeCall
  | measureCall
  | mkMeasurement (id : List Nat)
  | openSocket
  | sendto (t : Nat) (p : Payload) (addr : String × Nat)
  | sendErr
deriving DecidableEq, Repr

/-- One hex digit, lowercase, as `ubinascii.hexlify` produces. -/
def hexChar (n : Nat) : Char :=
  if n < 10 then Char.ofNat (48 + n) else Char.ofNat (87 + n)

/-- Two hex digits for one byte. -/
def hexByte (b : Nat) : String :=
  String.mk [hexChar (b / 16 % 16), hexChar (b % 16)]

/-- `ubinascii.hexlify` on a byte string. -/
def hexlify (bs : List Nat) : String :=
  String.join (bs.map hexByte)

/-- The JSON record passed to `ujson.dumps` in `send_measurement`, built at a
given clock value: `sensor_time` is `utime.time()`, i.e. the clock in whole
seconds, read afresh at each loop iteration. -/
def mkPayload (env : Env) (temperature humidity : Int) (mid : List Nat)
    (clock : Nat) : Payload :=
  { sensor_id := hexlify env.uniqueId
  , sensor_type := "ESP32/DHT22"
  , sensor_time := clock / 10
  , measurement_id := hexlify mid
  , temperature := temperature
  , humidity := humidity }

/-- `ujson.dumps` of the record, with the source's field order. -/
def dumps (p : Payload) : String :=
  "\x7b\"sensor_id\": \"" ++ p.sensor_id ++
  "\", \"sensor_type\": \"" ++ p.sensor_type ++
  "\", \"sensor_time\": " ++ toString p.sensor_time ++
  ", \"measurement_id\": \"" ++ p.measurement_id ++
  "\", \"measurement_data\": \x7b\"temperature\": " ++ toString p.temperature ++
  ", \"humidity\": " ++ toString p.humidity ++ "\x7d\x7d"

/-- The `for i in range(20)` polling loop of `connect`: each iteration sleeps
0.5 time-units, then checks `nic.isconnected()`, returning `True` on the
first success; falling through all iterations returns `None` (fall off the
end of the function). -/
def connectLoop (env : Env) : Nat → St → PyRes × St × List Event
  | 0, st => (PyRes.pyNone, st, [])
  | Nat.succ n, st =>
    let stSlept : St := { st with clock := st.clock + 5 }
    let ok := env.isconnected stSlept.wifiCalls
    let st2 : St := { stSlept with wifiCalls := stSlept.wifiCalls + 1 }
    if ok then
      (PyRes.pyTrue, st2, [Event.sleepTenths 5, Event.checkWifi ok])
    else
      let r := connectLoop env n st2
      (r.1, r.2.1, Event.sleepTenths 5 :: Event.checkWifi ok :: r.2.2)

/-- `connect(wifi_network, wifi_password)`: fast path `return True` if
already associated, else start association and run the 20-iteration poll
loop. -/
def connect (env : Env) (st : St) : PyRes × St × List Event :=
  let ok0 := env.isconnected st.wifiCalls
  let st1 : St := { st with wifiCalls := st.wifiCalls + 1 }
  if ok0 then
    (PyRes.pyTrue, st1, [Event.checkWifi ok0])
  else
    let r := connectLoop env 20 st1
    (r.1, r.2.1, Event.checkWifi ok0 :: r.2.2)

/-- The `for i in range(3)` loop of `send_measurement`: each iteration opens
a fresh UDP socket, serialises the record (reading `utime.time()` afresh) and
sends it, then sleeps 0.1 time-units. A failing `sendto` raises, aborting the
loop; the Bool result records normal completion vs. uncaught exception. -/
def sendLoop (env : Env) (address : String × Nat) (temperature humidity : Int)
    (mid : List Nat) : Nat → St → Bool × St × List Event
  | 0, st => (true, st, [])
  | Nat.succ n, st =>
    let p := mkPayload env temperature humidity mid st.clock
    let ok := env.sendOk st.sends
    let st1 : St := { st with sends := st.sends + 1 }
    if ok then
      let st2 : St := { st1 with clock := st1.clock + 1 }
      let r := sendLoop env address temperature humidity mid n st2
      (r.1, r.2.1,
        Event.openSocket :: Event.sendto st.clock p address ::
          Event.sleepTenths 1 :: r.2.2)
    else
      (false, st1, [Event.openSocket, Event.sendErr])

/-- `send_measurement(sensor, address)`: `sensor.measure()` (which may raise),
read temperature and humidity, draw `measurement_id = uos.urandom(16)` once,
then the 3-iteration send loop. The Bool result records normal completion. -/
def send_measurement (env : Env) (address : String × Nat) (st : St) :
    Bool × St × List Event :=
  if env.measureOk then
    let r := sendLoop env address env.temperature env.humidity env.urandom16 3 st
    (r.1, r.2.1, Event.measureCall :: Event.mkMeasurement env.urandom16 :: r.2.2)
  else
    (false, st, [Event.measureCall])

/-- How one boot ends: `main` returns normally (control falls through to the
REPL), `machine.deepsleep(ms)` is reached (a terminal, non-returning call),
or an exception propagates out of `main`. -/
inductive Outcome
  | finished
  | slept (ms : Nat)
  | crashed
deriving DecidableEq, Repr

/-- The interpreter state at the top of `main`. -/
def initSt (env : Env) : St :=
  { clock := env.clock0, wifiCalls := 0, sends := 0 }

/-- `main()`: dispatch on `machine.reset_cause()`. On `PWRON_RESET`: connect;
on success `ntptime.settime()` (may raise), `send_measurement`, then
`machine.deepsleep(INTERVAL * 1000)`. On `DEEPSLEEP_RESET`: the same without
the time sync. Any other cause matches neither `if` and `main` returns. When
connect fails on a `PWRON_RESET` boot, the second `if` compares the same
reset cause against `DEEPSLEEP_RESET` and does not fire, so `main` returns
without sleeping. -/
def main (env : Env) (cause : ResetCause) : Outcome × List Event :=
  match cause with
  | ResetCause.PWRON_RESET =>
    let c := connect env (initSt env)
    if truthy c.1 then
      if env.settimeOk then
        let s := send_measurement env (env.cfg.SERVER_ADDR, env.cfg.SERVER_PORT) c.2.1
        if s.1 then
          (Outcome.slept (env.cfg.INTERVAL * 1000), c.2.2 ++ Event.settimeCall :: s.2.2)
        else
          (Outcome.crashed, c.2.2 ++ Event.settimeCall :: s.2.2)
      else
        (Outcome.crashed, c.2.2 ++ [Event.settimeCall])
    else
      (Outcome.finished, c.2.2)
  | ResetCause.DEEPSLEEP_RESET =>
    let c := connect env (initSt env)
    if truthy c.1 then
      let s := send_measurement env (env.cfg.SERVER_ADDR, env.cfg.SERVER_PORT) c.2.1
      if s.1 then
        (Outcome.slept (env.cfg.INTERVAL * 1000), c.2.2 ++ s.2.2)
      else
        (Outcome.crashed, c.2.2 ++ s.2.2)
    else
      (Outcome.finished, c.2.2)
  | ResetCause.OTHER => (Outcome.finished, [])

/-! ### Trace observations -/

/-- Is this event a `utime.sleep` call? -/
def Event.isSleep : Event → Bool
  | Event.sleepTenths _ => true
  | _ => false

/-- Is this event an `ntptime.settime()` call? -/
def Event.isSettime : Event → Bool
  | Event.settimeCall => true
  | _ => false

/-- Is this event a `sensor.measure()` call? -/
def Event.isMeasure : Event → Bool
  | Event.measureCall => true
  | _ => false

/-- Is this event the construction of a Measurement (readings taken and
`measurement_id` drawn)? -/
def Event.isMk : Event → Bool
  | Event.mkMeasurement _ => true
  | _ => false

/-- Is this event a datagram handed to the network layer? -/
def Event.isSend : Event → Bool
  | Event.sendto _ _ _ => true
  | _ => false

/-- Is this event a `usocket.socket(...)` creation? -/
def Event.isOpen : Event → Bool
  | Event.openSocket => true
  | _ => false

/-- Number of `utime.sleep` calls in a trace. -/
def nSleep (tr : List Event) : Nat := tr.countP Event.isSleep

/-- Number of `ntptime.settime()` calls in a trace. -/
def nSettime (tr : List Event) : Nat := tr.countP Event.isSettime

/-- Number of `sensor.measure()` calls in a trace. -/
def nMeasure (tr : List Event) : Nat := tr.countP Event.isMeasure

/-- Number of Measurements constructed in a trace. -/
def nMk (tr : List Event) : Nat := tr.countP Event.isMk

/-- Number of datagrams handed to the network layer in a trace. -/
def nSend (tr : List Event) : Nat := tr.countP Event.isSend

/-- Number of sockets opened in a trace. -/
def nOpen (tr : List Event) : Nat := tr.countP Event.isOpen

/-- The datagrams of a trace, in order: send clock (tenths), payload,
destination address. -/
def sentList (tr : List Event) : List (Nat × Payload × (String × Nat)) :=
  tr.filterMap fun e =>
    match e with
    | Event.sendto t p a => some (t, p, a)
    | _ => none

/-- Whether the whole cycle succeeds: connect returns `True`, the time sync
succeeds when the boot is a cold start, the sensor read succeeds, and all
three `sendto` calls succeed. (`main` reaches `deepsleep` exactly in this
case.) -/
def cycleOk (env : Env) (cause : ResetCause) : Bool :=
  truthy (connect env (initSt env)).1 &&
    (if cause = ResetCause.PWRON_RESET then env.settimeOk else true) &&
    env.measureOk && env.sendOk 0 && env.sendOk 1 && env.sendOk 2

end SensorFirmware

/-! ### Concrete environments (test fixtures for witnesses and counterexamples) -/

namespace SensorFirmware

/-- A concrete configuration: 300-second interval. -/
def cfgW : Config :=
  { INTERVAL := 300, WIFI_NETWORK := "homewifi", WIFI_PASSWORD := "secret"
  , SERVER_ADDR := "192.168.1.50", SERVER_PORT := 9999 }

/-- An environment where everything succeeds and the station is already
associated at the fast-path check. -/
def envGood : Env :=
  { cfg := cfgW, clock0 := 40
  , uniqueId := [1, 2, 171]
  , urandom16 := [0, 1, 2, 3, 4, 5, 6, 7, 8, 9, 10, 11, 12, 13, 14, 15]
  , isconnected := fun _ => true
  , settimeOk := true, measureOk := true
  , temperature := 21, humidity := 45
  , sendOk := fun _ => true }

/-- Same but the network never associates: every `isconnected()` call is
false, so `connect` exhausts its 20 polls. -/
def envNoWifi : Env := { envGood with isconnected := fun _ => false }

/-- Same as `envGood` but association is only reported from the third
`isconnected()` call onwards (entry check and polls 1-2 fail, poll 3
succeeds). -/
def envLate : Env := { envGood with isconnected := fun i => decide (3 ≤ i) }

/-- Same as `envGood` but the second `sendto` raises `OSError`. -/
def envSendFail1 : Env := { envGood with sendOk := fun i => i == 0 }

/-- Same as `envGood` but the first `sendto` raises `OSError`. -/
def envSendFail0 : Env := { envGood with sendOk := fun _ => false }

/-- Same as `envGood` but `ntptime.settime()` raises. -/
def envSettimeFail : Env := { envGood with settimeOk := false }

/-- Same as `envGood` but the clock starts at 0.9 s, so the 0.1-s delays
inside the send loop cross a whole-second boundary between the first and the
second send. -/
def envBoundary : Env := { envGood with clock0 := 9 }

end SensorFirmware

/-! ### Lemmas about `connect` -/

namespace SensorFirmware

lemma connectLoop_succ_true (env : Env) (n : Nat) (st : St)
    (h : env.isconnected st.wifiCalls = true) :
    connectLoop env (n + 1) st =
      (PyRes.pyTrue, ⟨st.clock + 5, st.wifiCalls + 1, st.sends⟩,
        [Event.sleepTenths 5, Event.checkWifi true]) := by
  simp [connectLoop, h]

lemma connectLoop_succ_false (env : Env) (n : Nat) (st : St)
    (h : env.isconnected st.wifiCalls = false) :
    connectLoop env (n + 1) st =
      ((connectLoop env n ⟨st.clock + 5, st.wifiCalls + 1, st.sends⟩).1,
       (connectLoop env n ⟨st.clock + 5, st.wifiCalls + 1, st.sends⟩).2.1,
       Event.sleepTenths 5 :: Event.checkWifi false ::
         (connectLoop env n ⟨st.clock + 5, st.wifiCalls + 1, st.sends⟩).2.2) := by
  simp [connectLoop, h]

lemma connectLoop_event_shape (env : Env) :
    ∀ fuel st, ∀ e ∈ (connectLoop env fuel st).2.2,
      e = Event.sleepTenths 5 ∨ ∃ b, e = Event.checkWifi b := by
  intro fuel
  induction fuel with
  | zero =>
    intro st e he
    simp [connectLoop] at he
  | succ n ih =>
    intro st e he
    by_cases h : env.isconnected st.wifiCalls = true
    · rw [connectLoop_succ_true env n st h] at he
      simp only [List.mem_cons, List.not_mem_nil, or_false] at he
      rcases he with he | he
      · exact Or.inl he
      · exact Or.inr ⟨_, he⟩
    · rw [Bool.not_eq_true] at h
      rw [connectLoop_succ_false env n st h] at he
      simp only [List.mem_cons] at he
      rcases he with he | he | he
      · exact Or.inl he
      · exact Or.inr ⟨_, he⟩
      · exact ih _ e he

lemma connectLoop_sends (env : Env) :
    ∀ fuel st, (connectLoop env fuel st).2.1.sends = st.sends := by
  intro fuel
  induction fuel with
  | zero => intro st; rfl
  | succ n ih =>
    intro st
    by_cases h : env.isconnected st.wifiCalls = true
    · rw [connectLoop_succ_true env n st h]
    · rw [Bool.not_eq_true] at h
      rw [connectLoop_succ_false env n st h]
      exact ih _

lemma connectLoop_res (env : Env) :
    ∀ fuel st, (connectLoop env fuel st).1 = PyRes.pyTrue ∨
      (connectLoop env fuel st).1 = PyRes.pyNone := by
  intro fuel
  induction fuel with
  | zero => intro st; exact Or.inr rfl
  | succ n ih =>
    intro st
    by_cases h : env.isconnected st.wifiCalls = true
    · rw [connectLoop_succ_true env n st h]; exact Or.inl rfl
    · rw [Bool.not_eq_true] at h
      rw [connectLoop_succ_false env n st h]
      exact ih _

lemma connectLoop_sleep_le (env : Env) :
    ∀ fuel st, nSleep (connectLoop env fuel st).2.2 ≤ fuel := by
  intro fuel
  induction fuel with
  | zero => intro st; exact le_of_eq rfl
  | succ n ih =>
    intro st
    by_cases h : env.isconnected st.wifiCalls = true
    · rw [connectLoop_succ_true env n st h]
      show (1 : Nat) ≤ n + 1
      omega
    · rw [Bool.not_eq_true] at h
      rw [connectLoop_succ_false env n st h]
      have hih := ih (⟨st.clock + 5, st.wifiCalls + 1, st.sends⟩ : St)
      simp only [nSleep] at hih ⊢
      rw [List.countP_cons, List.countP_cons]
      simp [Event.isSleep]
      try omega

lemma connectLoop_timeout (env : Env) :
    ∀ fuel st, (∀ j, j < fuel → env.isconnected (st.wifiCalls + j) = false) →
      (connectLoop env fuel st).1 = PyRes.pyNone ∧
      nSleep (connectLoop env fuel st).2.2 = fuel ∧
      (connectLoop env fuel st).2.1.clock = st.clock + 5 * fuel := by
  intro fuel
  induction fuel with
  | zero => intro st _; exact ⟨rfl, rfl, rfl⟩
  | succ n ih =>
    intro st h
    have h0 : env.isconnected st.wifiCalls = false := by simpa using h 0 (Nat.succ_pos n)
    have hrec := ih (⟨st.clock + 5, st.wifiCalls + 1, st.sends⟩ : St) (by
      intro j hj
      have hh := h (j + 1) (by omega)
      simpa [Nat.add_assoc, Nat.add_comm 1 j] using hh)
    rw [connectLoop_succ_false env n st h0]
    rcases hrec with ⟨hr1, hr2, hr3⟩
    refine ⟨hr1, ?_, ?_⟩
    · simp only [nSleep] at hr2 ⊢
      rw [List.countP_cons, List.countP_cons]
      simp [Event.isSleep]
      try omega
    · dsimp only at hr3 ⊢
      omega

lemma connectLoop_success (env : Env) :
    ∀ fuel m st, m < fuel →
      (∀ j, j < m → env.isconnected (st.wifiCalls + j) = false) →
      env.isconnected (st.wifiCalls + m) = true →
      (connectLoop env fuel st).1 = PyRes.pyTrue ∧
      nSleep (connectLoop env fuel st).2.2 = m + 1 ∧
      (connectLoop env fuel st).2.1.clock = st.clock + 5 * (m + 1) := by
  intro fuel
  induction fuel with
  | zero => intro m st hm; omega
  | succ n ih =>
    intro m st hm hbefore hsucc
    cases m with
    | zero =>
      have h0 : env.isconnected st.wifiCalls = true := by simpa using hsucc
      rw [connectLoop_succ_true env n st h0]
      refine ⟨rfl, rfl, ?_⟩
      show st.clock + 5 = st.clock + 5 * (0 + 1)
      omega
    | succ m' =>
      have h0 : env.isconnected st.wifiCalls = false := by
        simpa using hbefore 0 (Nat.succ_pos m')
      have hrec := ih m' (⟨st.clock + 5, st.wifiCalls + 1, st.sends⟩ : St) (by omega)
        (by
          intro j hj
          have hh := hbefore (j + 1) (by omega)
          simpa [Nat.add_assoc, Nat.add_comm 1 j] using hh)
        (by
          have he : st.wifiCalls + 1 + m' = st.wifiCalls + (m' + 1) := by omega
          simpa [he] using hsucc)
      rw [connectLoop_succ_false env n st h0]
      rcases hrec with ⟨hr1, hr2, hr3⟩
      refine ⟨hr1, ?_, ?_⟩
      · simp only [nSleep] at hr2 ⊢
        rw [List.countP_cons, List.countP_cons]
        simp [Event.isSleep]
        try omega
      · dsimp only at hr3 ⊢
        omega

lemma connect_fast (env : Env) (st : St) (h : env.isconnected st.wifiCalls = true) :
    connect env st =
      (PyRes.pyTrue, ⟨st.clock, st.wifiCalls + 1, st.sends⟩, [Event.checkWifi true]) := by
  simp [connect, h]

lemma connect_slow (env : Env) (st : St) (h : env.isconnected st.wifiCalls = false) :
    connect env st =
      ((connectLoop env 20 ⟨st.clock, st.wifiCalls + 1, st.sends⟩).1,
       (connectLoop env 20 ⟨st.clock, st.wifiCalls + 1, st.sends⟩).2.1,
       Event.checkWifi false ::
         (connectLoop env 20 ⟨st.clock, st.wifiCalls + 1, st.sends⟩).2.2) := by
  simp [connect, h]

lemma connect_event_shape (env : Env) (st : St) :
    ∀ e ∈ (connect env st).2.2,
      e = Event.sleepTenths 5 ∨ ∃ b, e = Event.checkWifi b := by
  intro e he
  by_cases h : env.isconnected st.wifiCalls = true
  · rw [connect_fast env st h] at he
    simp only [List.mem_cons, List.not_mem_nil, or_false] at he
    exact Or.inr ⟨_, he⟩
  · rw [Bool.not_eq_true] at h
    rw [connect_slow env st h] at he
    simp only [List.mem_cons] at he
    rcases he with he | he
    · exact Or.inr ⟨_, he⟩
    · exact connectLoop_event_shape env 20 _ e he

lemma connect_sends (env : Env) (st : St) :
    (connect env st).2.1.sends = st.sends := by
  by_cases h : env.isconnected st.wifiCalls = true
  · rw [connect_fast env st h]
  · rw [Bool.not_eq_true] at h
    rw [connect_slow env st h]
    exact connectLoop_sends env 20 _

lemma connect_res (env : Env) (st : St) :
    (connect env st).1 = PyRes.pyTrue ∨ (connect env st).1 = PyRes.pyNone := by
  by_cases h : env.isconnected st.wifiCalls = true
  · rw [connect_fast env st h]; exact Or.inl rfl
  · rw [Bool.not_eq_true] at h
    rw [connect_slow env st h]
    exact connectLoop_res env 20 _

lemma connect_countP_zero (env : Env) (st : St) (p : Event → Bool)
    (hsleep : ∀ t, p (Event.sleepTenths t) = false)
    (hcheck : ∀ b, p (Event.checkWifi b) = false) :
    (connect env st).2.2.countP p = 0 := by
  rw [List.countP_eq_zero]
  intro e he
  rcases connect_event_shape env st e he with h | ⟨b, h⟩
  · simp [h, hsleep]
  · simp [h, hcheck]

lemma connect_nSend (env : Env) (st : St) : nSend (connect env st).2.2 = 0 :=
  connect_countP_zero env st _ (fun _ => rfl) (fun _ => rfl)

lemma connect_nSettime (env : Env) (st : St) : nSettime (connect env st).2.2 = 0 :=
  connect_countP_zero env st _ (fun _ => rfl) (fun _ => rfl)

lemma connect_nMeasure (env : Env) (st : St) : nMeasure (connect env st).2.2 = 0 :=
  connect_countP_zero env st _ (fun _ => rfl) (fun _ => rfl)

lemma connect_nMk (env : Env) (st : St) : nMk (connect env st).2.2 = 0 :=
  connect_countP_zero env st _ (fun _ => rfl) (fun _ => rfl)

lemma connect_nOpen (env : Env) (st : St) : nOpen (connect env st).2.2 = 0 :=
  connect_countP_zero env st _ (fun _ => rfl) (fun _ => rfl)

lemma connect_sentList (env : Env) (st : St) : sentList (connect env st).2.2 = [] := by
  simp only [sentList, List.filterMap_eq_nil_iff]
  intro e he
  rcases connect_event_shape env st e he with h | ⟨b, h⟩ <;> simp [h]

end SensorFirmware

/-! ### Lemmas about `send_measurement` -/

namespace SensorFirmware

lemma sendLoop_succ_true (env : Env) (a : String × Nat) (T H : Int) (mid : List Nat)
    (n : Nat) (st : St) (h : env.sendOk st.sends = true) :
    sendLoop env a T H mid (n + 1) st =
      ((sendLoop env a T H mid n ⟨st.clock + 1, st.wifiCalls, st.sends + 1⟩).1,
       (sendLoop env a T H mid n ⟨st.clock + 1, st.wifiCalls, st.sends + 1⟩).2.1,
       Event.openSocket :: Event.sendto st.clock (mkPayload env T H mid st.clock) a ::
         Event.sleepTenths 1 ::
           (sendLoop env a T H mid n ⟨st.clock + 1, st.wifiCalls, st.sends + 1⟩).2.2) := by
  simp [sendLoop, h]

lemma sendLoop_succ_false (env : Env) (a : String × Nat) (T H : Int) (mid : List Nat)
    (n : Nat) (st : St) (h : env.sendOk st.sends = false) :
    sendLoop env a T H mid (n + 1) st =
      (false, ⟨st.clock, st.wifiCalls, st.sends + 1⟩,
        [Event.openSocket, Event.sendErr]) := by
  simp [sendLoop, h]

lemma sendLoop_ok3 (env : Env) (a : String × Nat) (T H : Int) (mid : List Nat)
    (st : St) (h0 : env.sendOk st.sends = true) (h1 : env.sendOk (st.sends + 1) = true)
    (h2 : env.sendOk (st.sends + 2) = true) :
    sendLoop env a T H mid 3 st =
      (true, ⟨st.clock + 3, st.wifiCalls, st.sends + 3⟩,
       [Event.openSocket, Event.sendto st.clock (mkPayload env T H mid st.clock) a,
        Event.sleepTenths 1,
        Event.openSocket,
        Event.sendto (st.clock + 1) (mkPayload env T H mid (st.clock + 1)) a,
        Event.sleepTenths 1,
        Event.openSocket,
        Event.sendto (st.clock + 2) (mkPayload env T H mid (st.clock + 2)) a,
        Event.sleepTenths 1]) := by
  have h2' : env.sendOk (st.sends + 1 + 1) = true := by
    have he : st.sends + 1 + 1 = st.sends + 2 := by omega
    rw [he]; exact h2
  have hc1 : st.clock + 1 + 1 = st.clock + 2 := by omega
  have hc2 : st.clock + 1 + 1 + 1 = st.clock + 3 := by omega
  have hs3 : st.sends + 1 + 1 + 1 = st.sends + 3 := by omega
  simp [sendLoop, h0, h1, h2', hc1, hc2, hs3, Nat.add_assoc]

lemma sendLoop_fail1 (env : Env) (a : String × Nat) (T H : Int) (mid : List Nat)
    (st : St) (h0 : env.sendOk st.sends = true) (h1 : env.sendOk (st.sends + 1) = false) :
    sendLoop env a T H mid 3 st =
      (false, ⟨st.clock + 1, st.wifiCalls, st.sends + 2⟩,
       [Event.openSocket, Event.sendto st.clock (mkPayload env T H mid st.clock) a,
        Event.sleepTenths 1, Event.openSocket, Event.sendErr]) := by
  have hs2 : st.sends + 1 + 1 = st.sends + 2 := by omega
  simp [sendLoop, h0, h1, hs2]

lemma sendLoop_fail2 (env : Env) (a : String × Nat) (T H : Int) (mid : List Nat)
    (st : St) (h0 : env.sendOk st.sends = true) (h1 : env.sendOk (st.sends + 1) = true)
    (h2 : env.sendOk (st.sends + 2) = false) :
    sendLoop env a T H mid 3 st =
      (false, ⟨st.clock + 2, st.wifiCalls, st.sends + 3⟩,
       [Event.openSocket, Event.sendto st.clock (mkPayload env T H mid st.clock) a,
        Event.sleepTenths 1,
        Event.openSocket,
        Event.sendto (st.clock + 1) (mkPayload env T H mid (st.clock + 1)) a,
        Event.sleepTenths 1,
        Event.openSocket, Event.sendErr]) := by
  have h2' : env.sendOk (st.sends + 1 + 1) = false := by
    have he : st.sends + 1 + 1 = st.sends + 2 := by omega
    rw [he]; exact h2
  have hc1 : st.clock + 1 + 1 = st.clock + 2 := by omega
  have hs3 : st.sends + 1 + 1 + 1 = st.sends + 3 := by omega
  simp [sendLoop, h0, h1, h2', hc1, hs3, Nat.add_assoc]

lemma sendLoop_res3 (env : Env) (a : String × Nat) (T H : Int) (mid : List Nat)
    (st : St) :
    (sendLoop env a T H mid 3 st).1 =
      (env.sendOk st.sends && (env.sendOk (st.sends + 1) && env.sendOk (st.sends + 2))) := by
  cases h0 : env.sendOk st.sends with
  | false => rw [sendLoop_succ_false env a T H mid 2 st h0]; simp
  | true =>
    cases h1 : env.sendOk (st.sends + 1) with
    | false => rw [sendLoop_fail1 env a T H mid st h0 h1]; simp
    | true =>
      cases h2 : env.sendOk (st.sends + 2) with
      | false => rw [sendLoop_fail2 env a T H mid st h0 h1 h2]; simp
      | true => rw [sendLoop_ok3 env a T H mid st h0 h1 h2]; simp

lemma sendLoop_event_shape (env : Env) (a : String × Nat) (T H : Int) (mid : List Nat) :
    ∀ fuel st, ∀ e ∈ (sendLoop env a T H mid fuel st).2.2,
      e = Event.openSocket ∨ e = Event.sendErr ∨ e = Event.sleepTenths 1 ∨
        ∃ t p, e = Event.sendto t p a := by
  intro fuel
  induction fuel with
  | zero =>
    intro st e he
    simp [sendLoop] at he
  | succ n ih =>
    intro st e he
    cases h : env.sendOk st.sends with
    | false =>
      rw [sendLoop_succ_false env a T H mid n st h] at he
      simp only [List.mem_cons, List.not_mem_nil, or_false] at he
      rcases he with he | he
      · exact Or.inl he
      · exact Or.inr (Or.inl he)
    | true =>
      rw [sendLoop_succ_true env a T H mid n st h] at he
      simp only [List.mem_cons] at he
      rcases he with he | he | he | he
      · exact Or.inl he
      · exact Or.inr (Or.inr (Or.inr ⟨_, _, he⟩))
      · exact Or.inr (Or.inr (Or.inl he))
      · exact ih _ e he

lemma sendLoop_countP_zero (env : Env) (a : String × Nat) (T H : Int) (mid : List Nat)
    (fuel : Nat) (st : St) (p : Event → Bool)
    (hopen : p Event.openSocket = false) (herr : p Event.sendErr = false)
    (hsleep : ∀ t, p (Event.sleepTenths t) = false)
    (hsend : ∀ t q, p (Event.sendto t q a) = false) :
    (sendLoop env a T H mid fuel st).2.2.countP p = 0 := by
  rw [List.countP_eq_zero]
  intro e he
  rcases sendLoop_event_shape env a T H mid fuel st e he with h | h | h | ⟨t, q, h⟩ <;>
    simp [h, hopen, herr, hsleep, hsend]

lemma sm_measure_fail (env : Env) (a : String × Nat) (st : St)
    (h : env.measureOk = false) :
    send_measurement env a st = (false, st, [Event.measureCall]) := by
  simp [send_measurement, h]

lemma sm_eq (env : Env) (a : String × Nat) (st : St) (h : env.measureOk = true) :
    send_measurement env a st =
      ((sendLoop env a env.temperature env.humidity env.urandom16 3 st).1,
       (sendLoop env a env.temperature env.humidity env.urandom16 3 st).2.1,
       Event.measureCall :: Event.mkMeasurement env.urandom16 ::
         (sendLoop env a env.temperature env.humidity env.urandom16 3 st).2.2) := by
  simp [send_measurement, h]

lemma sm_nSettime (env : Env) (a : String × Nat) (st : St) :
    nSettime (send_measurement env a st).2.2 = 0 := by
  cases h : env.measureOk with
  | false => rw [sm_measure_fail env a st h]; rfl
  | true =>
    rw [sm_eq env a st h]
    simp only [nSettime]
    rw [List.countP_cons, List.countP_cons]
    rw [sendLoop_countP_zero env a env.temperature env.humidity env.urandom16 3 st _
      rfl rfl (fun _ => rfl) (fun _ _ => rfl)]
    rfl

lemma sm_nMeasure (env : Env) (a : String × Nat) (st : St) :
    nMeasure (send_measurement env a st).2.2 = 1 := by
  cases h : env.measureOk with
  | false => rw [sm_measure_fail env a st h]; rfl
  | true =>
    rw [sm_eq env a st h]
    simp only [nMeasure]
    rw [List.countP_cons, List.countP_cons]
    rw [sendLoop_countP_zero env a env.temperature env.humidity env.urandom16 3 st _
      rfl rfl (fun _ => rfl) (fun _ _ => rfl)]
    rfl

lemma sm_nMk (env : Env) (a : String × Nat) (st : St) :
    nMk (send_measurement env a st).2.2 = if env.measureOk then 1 else 0 := by
  cases h : env.measureOk with
  | false => rw [sm_measure_fail env a st h]; rfl
  | true =>
    rw [sm_eq env a st h]
    simp only [nMk]
    rw [List.countP_cons, List.countP_cons]
    rw [sendLoop_countP_zero env a env.temperature env.humidity env.urandom16 3 st _
      rfl rfl (fun _ => rfl) (fun _ _ => rfl)]
    rfl

end SensorFirmware

/-! ### Lemmas about `main` -/

namespace SensorFirmware

lemma main_pwron_false (env : Env)
    (h : truthy (connect env (initSt env)).1 = false) :
    main env ResetCause.PWRON_RESET =
      (Outcome.finished, (connect env (initSt env)).2.2) := by
  simp [main, h]

lemma main_ds_false (env : Env)
    (h : truthy (connect env (initSt env)).1 = false) :
    main env ResetCause.DEEPSLEEP_RESET =
      (Outcome.finished, (connect env (initSt env)).2.2) := by
  simp [main, h]

lemma main_pwron_settime_crash (env : Env)
    (htr : truthy (connect env (initSt env)).1 = true)
    (hset : env.settimeOk = false) :
    main env ResetCause.PWRON_RESET =
      (Outcome.crashed, (connect env (initSt env)).2.2 ++ [Event.settimeCall]) := by
  simp [main, htr, hset]

lemma main_pwron_tr (env : Env)
    (htr : truthy (connect env (initSt env)).1 = true)
    (hset : env.settimeOk = true) :
    (main env ResetCause.PWRON_RESET).2 =
      (connect env (initSt env)).2.2 ++ Event.settimeCall ::
        (send_measurement env (env.cfg.SERVER_ADDR, env.cfg.SERVER_PORT)
          (connect env (initSt env)).2.1).2.2 := by
  cases hsm : (send_measurement env (env.cfg.SERVER_ADDR, env.cfg.SERVER_PORT)
      (connect env (initSt env)).2.1).1 <;>
    simp [main, htr, hset, hsm]

lemma main_pwron_out (env : Env)
    (htr : truthy (connect env (initSt env)).1 = true)
    (hset : env.settimeOk = true) :
    (main env ResetCause.PWRON_RESET).1 =
      (if (send_measurement env (env.cfg.SERVER_ADDR, env.cfg.SERVER_PORT)
            (connect env (initSt env)).2.1).1 = true
       then Outcome.slept (env.cfg.INTERVAL * 1000) else Outcome.crashed) := by
  cases hsm : (send_measurement env (env.cfg.SERVER_ADDR, env.cfg.SERVER_PORT)
      (connect env (initSt env)).2.1).1 <;>
    simp [main, htr, hset, hsm]

lemma main_ds_tr (env : Env)
    (htr : truthy (connect env (initSt env)).1 = true) :
    (main env ResetCause.DEEPSLEEP_RESET).2 =
      (connect env (initSt env)).2.2 ++
        (send_measurement env (env.cfg.SERVER_ADDR, env.cfg.SERVER_PORT)
          (connect env (initSt env)).2.1).2.2 := by
  cases hsm : (send_measurement env (env.cfg.SERVER_ADDR, env.cfg.SERVER_PORT)
      (connect env (initSt env)).2.1).1 <;>
    simp [main, htr, hsm]

lemma main_ds_out (env : Env)
    (htr : truthy (connect env (initSt env)).1 = true) :
    (main env ResetCause.DEEPSLEEP_RESET).1 =
      (if (send_measurement env (env.cfg.SERVER_ADDR, env.cfg.SERVER_PORT)
            (connect env (initSt env)).2.1).1 = true
       then Outcome.slept (env.cfg.INTERVAL * 1000) else Outcome.crashed) := by
  cases hsm : (send_measurement env (env.cfg.SERVER_ADDR, env.cfg.SERVER_PORT)
      (connect env (initSt env)).2.1).1 <;>
    simp [main, htr, hsm]

lemma connect_sends0 (env : Env) :
    (connect env (initSt env)).2.1.sends = 0 :=
  connect_sends env (initSt env)

lemma sm_res0 (env : Env) (hm : env.measureOk = true) :
    (send_measurement env (env.cfg.SERVER_ADDR, env.cfg.SERVER_PORT)
        (connect env (initSt env)).2.1).1 =
      (env.sendOk 0 && (env.sendOk 1 && env.sendOk 2)) := by
  rw [sm_eq env (env.cfg.SERVER_ADDR, env.cfg.SERVER_PORT)
    (connect env (initSt env)).2.1 hm]
  rw [sendLoop_res3 env (env.cfg.SERVER_ADDR, env.cfg.SERVER_PORT)
    env.temperature env.humidity env.urandom16 (connect env (initSt env)).2.1]
  rw [connect_sends0 env]

lemma main_out_eq (env : Env) (cause : ResetCause)
    (hc : cause = ResetCause.PWRON_RESET ∨ cause = ResetCause.DEEPSLEEP_RESET) :
    (main env cause).1 =
      (if cycleOk env cause = true then Outcome.slept (env.cfg.INTERVAL * 1000)
       else if truthy (connect env (initSt env)).1 = true then Outcome.crashed
       else Outcome.finished) := by
  rcases hc with rfl | rfl
  · cases htr : truthy (connect env (initSt env)).1 with
    | false => rw [main_pwron_false env htr]; simp [cycleOk, htr]
    | true =>
      cases hset : env.settimeOk with
      | false => rw [main_pwron_settime_crash env htr hset]; simp [cycleOk, htr, hset]
      | true =>
        rw [main_pwron_out env htr hset]
        cases hm : env.measureOk with
        | false =>
          rw [sm_measure_fail env (env.cfg.SERVER_ADDR, env.cfg.SERVER_PORT)
            (connect env (initSt env)).2.1 hm]
          simp [cycleOk, htr, hset, hm]
        | true =>
          rw [sm_res0 env hm]
          cases hb0 : env.sendOk 0 <;> cases hb1 : env.sendOk 1 <;>
            cases hb2 : env.sendOk 2 <;>
            simp [cycleOk, htr, hset, hm, hb0, hb1, hb2]
  · cases htr : truthy (connect env (initSt env)).1 with
    | false => rw [main_ds_false env htr]; simp [cycleOk, htr]
    | true =>
      rw [main_ds_out env htr]
      cases hm : env.measureOk with
      | false =>
        rw [sm_measure_fail env (env.cfg.SERVER_ADDR, env.cfg.SERVER_PORT)
          (connect env (initSt env)).2.1 hm]
        simp [cycleOk, htr, hm]
      | true =>
        rw [sm_res0 env hm]
        cases hb0 : env.sendOk 0 <;> cases hb1 : env.sendOk 1 <;>
          cases hb2 : env.sendOk 2 <;>
          simp [cycleOk, htr, hm, hb0, hb1, hb2]

end SensorFirmware

/-! ### Counting lemmas for whole runs -/

namespace SensorFirmware

lemma nSettime_main_eq (env : Env) (cause : ResetCause) :
    nSettime (main env cause).2 =
      if cause = ResetCause.PWRON_RESET ∧
          truthy (connect env (initSt env)).1 = true then 1 else 0 := by
  have hz : nSettime (connect env (initSt env)).2.2 = 0 :=
    connect_nSettime env (initSt env)
  cases cause with
  | OTHER => simp [main, nSettime]
  | DEEPSLEEP_RESET =>
    cases htr : truthy (connect env (initSt env)).1 with
    | false =>
      rw [main_ds_false env htr]
      simp [hz, htr]
    | true =>
      rw [main_ds_tr env htr]
      have hsm := sm_nSettime env (env.cfg.SERVER_ADDR, env.cfg.SERVER_PORT)
        (connect env (initSt env)).2.1
      simp only [nSettime] at hz hsm ⊢
      rw [List.countP_append, hz, hsm]
      simp
  | PWRON_RESET =>
    cases htr : truthy (connect env (initSt env)).1 with
    | false =>
      rw [main_pwron_false env htr]
      simp [hz, htr]
    | true =>
      cases hset : env.settimeOk with
      | false =>
        rw [main_pwron_settime_crash env htr hset]
        simp only [nSettime] at hz ⊢
        rw [List.countP_append, hz]
        simp [List.countP_cons, Event.isSettime, htr]
      | true =>
        rw [main_pwron_tr env htr hset]
        have hsm := sm_nSettime env (env.cfg.SERVER_ADDR, env.cfg.SERVER_PORT)
          (connect env (initSt env)).2.1
        simp only [nSettime] at hz hsm ⊢
        rw [List.countP_append, hz, List.countP_cons, hsm]
        simp [Event.isSettime, htr]

lemma nMeasure_main_ds (env : Env) :
    nMeasure (main env ResetCause.DEEPSLEEP_RESET).2 =
      if truthy (connect env (initSt env)).1 = true then 1 else 0 := by
  have hz : nMeasure (connect env (initSt env)).2.2 = 0 :=
    connect_nMeasure env (initSt env)
  cases htr : truthy (connect env (initSt env)).1 with
  | false =>
    rw [main_ds_false env htr]
    simp [hz]
  | true =>
    rw [main_ds_tr env htr]
    have hsm := sm_nMeasure env (env.cfg.SERVER_ADDR, env.cfg.SERVER_PORT)
      (connect env (initSt env)).2.1
    simp only [nMeasure] at hz hsm ⊢
    rw [List.countP_append, hz, hsm]
    simp

end SensorFirmware

/-! ### Claims -/

namespace SensorFirmware

/-- C8: for a boot whose reset cause is neither `PWRON_RESET` nor
`DEEPSLEEP_RESET`, `main` matches neither branch: it performs no network
action, no sensor measurement, no datagram send, and no sleep — the run
produces an empty event trace and falls through (to the REPL). -/
theorem C8_other_cause_noop (env : Env) :
    main env ResetCause.OTHER = (Outcome.finished, []) := rfl

/-- C4: `ntptime.settime()` is invoked (exactly once) if and only if the boot
cause is `PWRON_RESET` (cold start) and `connect` returned a truthy value; it
is never invoked on a `DEEPSLEEP_RESET` (timer wake) boot or after a failed
connect. -/
theorem C4_settime_iff_coldstart_connected (env : Env) (cause : ResetCause) :
    nSettime (main env cause).2 =
      if cause = ResetCause.PWRON_RESET ∧
          truthy (connect env (initSt env)).1 = true then 1 else 0 :=
  nSettime_main_eq env cause

/-- C7: at every reachable sleep call site, the duration handed to
`machine.deepsleep` is exactly `INTERVAL * 1000` milliseconds: whenever a run
of `main` ends in the deep-sleep outcome, the slept duration equals the
configured interval converted to milliseconds. -/
theorem C7_sleep_duration_exact (env : Env) (cause : ResetCause) (ms : Nat)
    (h : (main env cause).1 = Outcome.slept ms) :
    ms = env.cfg.INTERVAL * 1000 := by
  cases cause with
  | OTHER => exact absurd h (by simp [main])
  | PWRON_RESET =>
    rw [main_out_eq env ResetCause.PWRON_RESET (Or.inl rfl)] at h
    by_cases hcy : cycleOk env ResetCause.PWRON_RESET = true
    · rw [if_pos hcy] at h
      exact (Outcome.slept.inj h).symm
    · rw [if_neg hcy] at h
      by_cases htr : truthy (connect env (initSt env)).1 = true
      · rw [if_pos htr] at h; simp at h
      · rw [if_neg htr] at h; simp at h
  | DEEPSLEEP_RESET =>
    rw [main_out_eq env ResetCause.DEEPSLEEP_RESET (Or.inr rfl)] at h
    by_cases hcy : cycleOk env ResetCause.DEEPSLEEP_RESET = true
    · rw [if_pos hcy] at h
      exact (Outcome.slept.inj h).symm
    · rw [if_neg hcy] at h
      by_cases htr : truthy (connect env (initSt env)).1 = true
      · rw [if_pos htr] at h; simp at h
      · rw [if_neg htr] at h; simp at h

/-- Witness for C7 at a concrete environment: the all-success timer-wake run
sleeps, and the slept duration is the configured 300 s interval in
milliseconds. -/
theorem C7_sleep_duration_exact_witness :
    (main envGood ResetCause.DEEPSLEEP_RESET).1 = Outcome.slept 300000 ∧
    300000 = envGood.cfg.INTERVAL * 1000 :=
  ⟨by decide, C7_sleep_duration_exact envGood ResetCause.DEEPSLEEP_RESET 300000 (by decide)⟩

/-- C9: in every run, at most one Measurement is constructed (the sensor
readings plus the freshly drawn `measurement_id`), and none is constructed
when connectivity was not established (`connect` returned a falsy value). -/
theorem C9_measurement_at_most_once (env : Env) (cause : ResetCause) :
    nMk (main env cause).2 ≤ 1 ∧
    (truthy (connect env (initSt env)).1 = false → nMk (main env cause).2 = 0) := by
  have hz : nMk (connect env (initSt env)).2.2 = 0 := connect_nMk env (initSt env)
  cases cause with
  | OTHER => exact ⟨Nat.zero_le 1, fun _ => rfl⟩
  | PWRON_RESET =>
    cases htr : truthy (connect env (initSt env)).1 with
    | false =>
      rw [main_pwron_false env htr]
      exact ⟨le_trans (le_of_eq hz) (by omega), fun _ => hz⟩
    | true =>
      refine ⟨?_, fun hf => absurd hf (by decide)⟩
      cases hset : env.settimeOk with
      | false =>
        rw [main_pwron_settime_crash env htr hset]
        simp only [nMk] at hz ⊢
        rw [List.countP_append, hz]
        simp [List.countP_cons, Event.isMk]
      | true =>
        rw [main_pwron_tr env htr hset]
        have hsm := sm_nMk env (env.cfg.SERVER_ADDR, env.cfg.SERVER_PORT)
          (connect env (initSt env)).2.1
        simp only [nMk] at hz hsm ⊢
        rw [List.countP_append, hz, List.countP_cons, hsm]
        cases hmm : env.measureOk <;> simp [hmm, Event.isMk]
  | DEEPSLEEP_RESET =>
    cases htr : truthy (connect env (initSt env)).1 with
    | false =>
      rw [main_ds_false env htr]
      exact ⟨le_trans (le_of_eq hz) (by omega), fun _ => hz⟩
    | true =>
      refine ⟨?_, fun hf => absurd hf (by decide)⟩
      rw [main_ds_tr env htr]
      have hsm := sm_nMk env (env.cfg.SERVER_ADDR, env.cfg.SERVER_PORT)
        (connect env (initSt env)).2.1
      simp only [nMk] at hz hsm ⊢
      rw [List.countP_append, hz, hsm]
      cases hmm : env.measureOk <;> simp [hmm]

/-- Witness for C9 at a concrete environment: when the network never
associates, `connect` is falsy and no Measurement is constructed. -/
theorem C9_measurement_at_most_once_witness :
    truthy (connect envNoWifi (initSt envNoWifi)).1 = false ∧
    nMk (main envNoWifi ResetCause.PWRON_RESET).2 = 0 :=
  ⟨by decide, (C9_measurement_at_most_once envNoWifi ResetCause.PWRON_RESET).2 (by decide)⟩

/-- C10: exhausting all 20 polls makes `connect` fall off the end of the
Python function, producing `None` — which is falsy but distinct from the
boolean `False`; both dispatch call sites test the result only for
truthiness (only `True` is truthy), so the guarded measure/send/sleep suite
is entered if and only if `connect` returned the literal `True` (on a cold
start the suite opens with the settime call, on a timer wake with the sensor
measure call; each is reached exactly when `connect` returned `True`). -/
theorem C10_none_vs_false_truthiness (env : Env) :
    (∀ r, truthy r = true ↔ r = PyRes.pyTrue)
    ∧ ((∀ i, i ≤ 20 → env.isconnected i = false) →
        (connect env (initSt env)).1 = PyRes.pyNone)
    ∧ PyRes.pyNone ≠ PyRes.pyFalse
    ∧ (nSettime (main env ResetCause.PWRON_RESET).2 = 1 ↔
        (connect env (initSt env)).1 = PyRes.pyTrue)
    ∧ (nMeasure (main env ResetCause.DEEPSLEEP_RESET).2 = 1 ↔
        (connect env (initSt env)).1 = PyRes.pyTrue) := by
  refine ⟨?_, ?_, ?_, ?_, ?_⟩
  · intro r; cases r <;> simp [truthy]
  · intro h
    have h0 : env.isconnected 0 = false := h 0 (by omega)
    have hl := connectLoop_timeout env 20 (⟨env.clock0, 1, 0⟩ : St)
      (fun j hj => show env.isconnected (1 + j) = false from h (1 + j) (by omega))
    rw [connect_slow env (initSt env) h0]
    exact hl.1
  · intro h; exact PyRes.noConfusion h
  · rw [nSettime_main_eq env ResetCause.PWRON_RESET]
    rcases connect_res env (initSt env) with hr | hr <;> rw [hr] <;> simp [truthy]
  · rw [nMeasure_main_ds env]
    rcases connect_res env (initSt env) with hr | hr <;> rw [hr] <;> simp [truthy]

/-- Witness for C10 at a concrete environment: with a network that never
associates, `connect` exhausts its polls and returns `None`. -/
theorem C10_none_vs_false_truthiness_witness :
    (connect envNoWifi (initSt envNoWifi)).1 = PyRes.pyNone :=
  (C10_none_vs_false_truthiness envNoWifi).2.1 (by decide)

end SensorFirmware

namespace SensorFirmware

lemma connect_fast0 (env : Env) (h : env.isconnected 0 = true) :
    connect env (initSt env) =
      (PyRes.pyTrue, ⟨env.clock0, 1, 0⟩, [Event.checkWifi true]) :=
  connect_fast env (initSt env) h

lemma connect_slow0 (env : Env) (h : env.isconnected 0 = false) :
    connect env (initSt env) =
      ((connectLoop env 20 ⟨env.clock0, 1, 0⟩).1,
       (connectLoop env 20 ⟨env.clock0, 1, 0⟩).2.1,
       Event.checkWifi false :: (connectLoop env 20 ⟨env.clock0, 1, 0⟩).2.2) :=
  connect_slow env (initSt env) h

/-- C5: the `connect` contract. If already associated it returns `True`
immediately with no polling (no sleeps, one status check). Otherwise it polls
at 0.5 time-unit intervals (every sleep in its trace is 0.5 time-units, and
there are at most 20), returns `True` in the first poll iteration in which
association is reported (having slept `k` times, i.e. `0.5 * k` time-units,
when the k-th status call is the first success), and when all polls fail it
falls through after the full 20 polls (10 time-units of waiting) with the
falsy result `None`. It never raises on timeout: the function is total and
its result is always `True` or `None`, never an exception (and never
`False`). -/
theorem C5_connect_poll_contract (env : Env) :
    (env.isconnected 0 = true →
      connect env (initSt env) =
        (PyRes.pyTrue, ⟨env.clock0, 1, 0⟩, [Event.checkWifi true]))
    ∧ (connect env (initSt env)).1 ≠ PyRes.pyFalse
    ∧ nSleep (connect env (initSt env)).2.2 ≤ 20
    ∧ (∀ e ∈ (connect env (initSt env)).2.2,
        Event.isSleep e = true → e = Event.sleepTenths 5)
    ∧ (∀ k, 1 ≤ k → k ≤ 20 → (∀ i, i < k → env.isconnected i = false) →
        env.isconnected k = true →
        (connect env (initSt env)).1 = PyRes.pyTrue ∧
        nSleep (connect env (initSt env)).2.2 = k ∧
        (connect env (initSt env)).2.1.clock = env.clock0 + 5 * k)
    ∧ ((∀ i, i ≤ 20 → env.isconnected i = false) →
        (connect env (initSt env)).1 = PyRes.pyNone ∧
        nSleep (connect env (initSt env)).2.2 = 20 ∧
        (connect env (initSt env)).2.1.clock = env.clock0 + 100) := by
  refine ⟨fun h => connect_fast0 env h, ?_, ?_, ?_, ?_, ?_⟩
  · rcases connect_res env (initSt env) with h | h <;> rw [h] <;> simp
  · by_cases h0 : env.isconnected 0 = true
    · rw [connect_fast0 env h0]
      show (0 : Nat) ≤ 20
      omega
    · rw [Bool.not_eq_true] at h0
      rw [connect_slow0 env h0]
      have hle := connectLoop_sleep_le env 20 (⟨env.clock0, 1, 0⟩ : St)
      simp only [nSleep] at hle ⊢
      try dsimp only
      rw [List.countP_cons]
      simp [Event.isSleep]
      omega
  · intro e he hs
    rcases connect_event_shape env (initSt env) e he with h | ⟨b, h⟩
    · exact h
    · rw [h] at hs
      exact absurd hs (by simp [Event.isSleep])
  · intro k hk1 hk2 hbef hks
    have h0 : env.isconnected 0 = false := hbef 0 hk1
    obtain ⟨m, rfl⟩ : ∃ m, k = m + 1 := ⟨k - 1, by omega⟩
    have hl := connectLoop_success env 20 m (⟨env.clock0, 1, 0⟩ : St) (by omega)
      (fun j hj => show env.isconnected (1 + j) = false from
        hbef (1 + j) (by omega))
      (show env.isconnected (1 + m) = true from by
        have hx : 1 + m = m + 1 := by omega
        rw [hx]; exact hks)
    rcases hl with ⟨hl1, hl2, hl3⟩
    rw [connect_slow0 env h0]
    refine ⟨hl1, ?_, ?_⟩
    · simp only [nSleep] at hl2 ⊢
      try dsimp only
      rw [List.countP_cons]
      simp [Event.isSleep, hl2]
    · dsimp only at hl3 ⊢
      omega
  · intro hall
    have h0 : env.isconnected 0 = false := hall 0 (by omega)
    have hl := connectLoop_timeout env 20 (⟨env.clock0, 1, 0⟩ : St)
      (fun j hj => show env.isconnected (1 + j) = false from
        hall (1 + j) (by omega))
    rcases hl with ⟨hl1, hl2, hl3⟩
    rw [connect_slow0 env h0]
    refine ⟨hl1, ?_, ?_⟩
    · simp only [nSleep] at hl2 ⊢
      try dsimp only
      rw [List.countP_cons]
      simp [Event.isSleep, hl2]
    · dsimp only at hl3 ⊢
      omega

/-- Witness for C5 at concrete environments: the already-associated fast
path, a first success at the third status call (3 sleeps, 1.5 time-units),
and the 20-poll exhaustion (10 time-units, result `None`). -/
theorem C5_connect_poll_contract_witness :
    connect envGood (initSt envGood) =
      (PyRes.pyTrue, ⟨40, 1, 0⟩, [Event.checkWifi true]) ∧
    ((connect envLate (initSt envLate)).1 = PyRes.pyTrue ∧
      nSleep (connect envLate (initSt envLate)).2.2 = 3 ∧
      (connect envLate (initSt envLate)).2.1.clock = envLate.clock0 + 5 * 3) ∧
    ((connect envNoWifi (initSt envNoWifi)).1 = PyRes.pyNone ∧
      nSleep (connect envNoWifi (initSt envNoWifi)).2.2 = 20 ∧
      (connect envNoWifi (initSt envNoWifi)).2.1.clock = envNoWifi.clock0 + 100) :=
  ⟨(C5_connect_poll_contract envGood).1 (by decide),
   (C5_connect_poll_contract envLate).2.2.2.2.1 3 (by decide) (by decide)
     (by decide) (by decide),
   (C5_connect_poll_contract envNoWifi).2.2.2.2.2 (by decide)⟩

/-- C1 counterexample: with a network that never associates (a timer-wake
boot whose 20 polls all fail), zero datagrams are sent — but, contrary to the
claim, the Sleep Scheduler is NOT invoked: `machine.deepsleep` is inside the
`if connect(...)` suite, so `main` simply returns (`Outcome.finished`, falls
through to the REPL) instead of sleeping for the configured interval. -/
theorem C1_counterexample :
    nSend (main envNoWifi ResetCause.DEEPSLEEP_RESET).2 = 0 ∧
    (main envNoWifi ResetCause.DEEPSLEEP_RESET).1 = Outcome.finished := by
  decide

/-- C1 amended: when `connect` fails, zero datagrams are sent and no sleep is
invoked (the cycle falls through). At most one sleep can occur per cycle (the
outcome records one terminal deep-sleep at most), and it occurs — with the
full configured interval — exactly when the whole cycle succeeds: `connect`
truthy, the cold-start time sync (when applicable), the sensor read, and all
three sends succeed. -/
theorem C1_sleep_iff_cycle_success (env : Env) (cause : ResetCause)
    (hc : cause = ResetCause.PWRON_RESET ∨ cause = ResetCause.DEEPSLEEP_RESET) :
    (truthy (connect env (initSt env)).1 = false →
      nSend (main env cause).2 = 0 ∧ (main env cause).1 = Outcome.finished)
    ∧ ((main env cause).1 = Outcome.slept (env.cfg.INTERVAL * 1000) ↔
        cycleOk env cause = true) := by
  constructor
  · intro hf
    rcases hc with rfl | rfl
    · rw [main_pwron_false env hf]
      exact ⟨connect_nSend env (initSt env), rfl⟩
    · rw [main_ds_false env hf]
      exact ⟨connect_nSend env (initSt env), rfl⟩
  · rw [main_out_eq env cause hc]
    by_cases hcy : cycleOk env cause = true
    · rw [if_pos hcy]
      simp [hcy]
    · rw [if_neg hcy]
      constructor
      · intro h
        by_cases htr : truthy (connect env (initSt env)).1 = true
        · rw [if_pos htr] at h; exact absurd h (by simp)
        · rw [if_neg htr] at h; exact absurd h (by simp)
      · intro h; exact absurd h hcy

/-- Witness for C1 at concrete environments: a failed-connect cold start
sends nothing and falls through without sleeping; an all-success timer wake
reaches the deep sleep with the full configured interval. -/
theorem C1_sleep_iff_cycle_success_witness :
    (nSend (main envNoWifi ResetCause.PWRON_RESET).2 = 0 ∧
      (main envNoWifi ResetCause.PWRON_RESET).1 = Outcome.finished) ∧
    (main envGood ResetCause.DEEPSLEEP_RESET).1 =
      Outcome.slept (envGood.cfg.INTERVAL * 1000) :=
  ⟨(C1_sleep_iff_cycle_success envNoWifi ResetCause.PWRON_RESET
      (Or.inl rfl)).1 (by decide),
   (C1_sleep_iff_cycle_success envGood ResetCause.DEEPSLEEP_RESET
      (Or.inr rfl)).2.mpr (by decide)⟩

end SensorFirmware

/-! ### The success-path trace of the send loop -/

namespace SensorFirmware

/-- The nine events of a fully successful `for i in range(3)` send loop
starting at clock `c`: socket creation, `sendto` of the freshly serialised
record, and the 0.1 time-unit sleep, three times. -/
def sendBlock (env : Env) (c : Nat) : List Event :=
  [Event.openSocket,
   Event.sendto c (mkPayload env env.temperature env.humidity env.urandom16 c)
     (env.cfg.SERVER_ADDR, env.cfg.SERVER_PORT),
   Event.sleepTenths 1,
   Event.openSocket,
   Event.sendto (c + 1)
     (mkPayload env env.temperature env.humidity env.urandom16 (c + 1))
     (env.cfg.SERVER_ADDR, env.cfg.SERVER_PORT),
   Event.sleepTenths 1,
   Event.openSocket,
   Event.sendto (c + 2)
     (mkPayload env env.temperature env.humidity env.urandom16 (c + 2))
     (env.cfg.SERVER_ADDR, env.cfg.SERVER_PORT),
   Event.sleepTenths 1]

lemma sm_tr_ok (env : Env) (hm : env.measureOk = true) (h0 : env.sendOk 0 = true)
    (h1 : env.sendOk 1 = true) (h2 : env.sendOk 2 = true) :
    (send_measurement env (env.cfg.SERVER_ADDR, env.cfg.SERVER_PORT)
        (connect env (initSt env)).2.1).2.2 =
      Event.measureCall :: Event.mkMeasurement env.urandom16 ::
        sendBlock env ((connect env (initSt env)).2.1.clock) := by
  have hs := connect_sends0 env
  have h0' : env.sendOk (connect env (initSt env)).2.1.sends = true := by
    rw [hs]; exact h0
  have h1' : env.sendOk ((connect env (initSt env)).2.1.sends + 1) = true := by
    rw [hs]; exact h1
  have h2' : env.sendOk ((connect env (initSt env)).2.1.sends + 2) = true := by
    rw [hs]; exact h2
  rw [sm_eq env (env.cfg.SERVER_ADDR, env.cfg.SERVER_PORT)
    (connect env (initSt env)).2.1 hm]
  rw [sendLoop_ok3 env (env.cfg.SERVER_ADDR, env.cfg.SERVER_PORT)
    env.temperature env.humidity env.urandom16 (connect env (initSt env)).2.1
    h0' h1' h2']
  rfl

lemma main_tr_ok_pwron (env : Env)
    (htr : truthy (connect env (initSt env)).1 = true)
    (hset : env.settimeOk = true) (hm : env.measureOk = true)
    (h0 : env.sendOk 0 = true) (h1 : env.sendOk 1 = true)
    (h2 : env.sendOk 2 = true) :
    (main env ResetCause.PWRON_RESET).2 =
      (connect env (initSt env)).2.2 ++ Event.settimeCall ::
        Event.measureCall :: Event.mkMeasurement env.urandom16 ::
          sendBlock env ((connect env (initSt env)).2.1.clock) := by
  rw [main_pwron_tr env htr hset, sm_tr_ok env hm h0 h1 h2]

lemma main_tr_ok_ds (env : Env)
    (htr : truthy (connect env (initSt env)).1 = true) (hm : env.measureOk = true)
    (h0 : env.sendOk 0 = true) (h1 : env.sendOk 1 = true)
    (h2 : env.sendOk 2 = true) :
    (main env ResetCause.DEEPSLEEP_RESET).2 =
      (connect env (initSt env)).2.2 ++
        Event.measureCall :: Event.mkMeasurement env.urandom16 ::
          sendBlock env ((connect env (initSt env)).2.1.clock) := by
  rw [main_ds_tr env htr, sm_tr_ok env hm h0 h1 h2]

lemma sentList_append (l1 l2 : List Event) :
    sentList (l1 ++ l2) = sentList l1 ++ sentList l2 := by
  simp [sentList]

lemma main_sentList_ok (env : Env) (cause : ResetCause)
    (hc : cause = ResetCause.PWRON_RESET ∨ cause = ResetCause.DEEPSLEEP_RESET)
    (htr : truthy (connect env (initSt env)).1 = true)
    (hset : cause = ResetCause.PWRON_RESET → env.settimeOk = true)
    (hm : env.measureOk = true) (h0 : env.sendOk 0 = true)
    (h1 : env.sendOk 1 = true) (h2 : env.sendOk 2 = true) :
    sentList (main env cause).2 =
      [((connect env (initSt env)).2.1.clock,
        mkPayload env env.temperature env.humidity env.urandom16
          ((connect env (initSt env)).2.1.clock),
        (env.cfg.SERVER_ADDR, env.cfg.SERVER_PORT)),
       ((connect env (initSt env)).2.1.clock + 1,
        mkPayload env env.temperature env.humidity env.urandom16
          ((connect env (initSt env)).2.1.clock + 1),
        (env.cfg.SERVER_ADDR, env.cfg.SERVER_PORT)),
       ((connect env (initSt env)).2.1.clock + 2,
        mkPayload env env.temperature env.humidity env.urandom16
          ((connect env (initSt env)).2.1.clock + 2),
        (env.cfg.SERVER_ADDR, env.cfg.SERVER_PORT))] := by
  rcases hc with rfl | rfl
  · rw [main_tr_ok_pwron env htr (hset rfl) hm h0 h1 h2, sentList_append,
      connect_sentList]
    simp [sentList, sendBlock]
  · rw [main_tr_ok_ds env htr hm h0 h1 h2, sentList_append, connect_sentList]
    simp [sentList, sendBlock]

end SensorFirmware

namespace SensorFirmware

/-- C2 counterexample: the claim says the SAME serialized payload is sent
three times, but the record is re-serialised inside the loop and
`sensor_time` is re-read from the clock at each send; starting the cycle at
clock 0.9 s, the 0.1-s inter-send delay crosses the second boundary, so the
first and second datagrams carry different serialised payloads
(`sensor_time` 0 vs 1). -/
theorem C2_counterexample :
    ((sentList (main envBoundary ResetCause.DEEPSLEEP_RESET).2).map
        (fun s => dumps s.2.1)).get? 0 ≠
      ((sentList (main envBoundary ResetCause.DEEPSLEEP_RESET).2).map
        (fun s => dumps s.2.1)).get? 1 ∧
    (sentList (main envBoundary ResetCause.DEEPSLEEP_RESET).2).map
        (fun s => s.2.1.sensor_time) = [0, 1, 1] := by
  decide

/-- C2 amended: in every fully successful cycle the Transmitter performs
exactly 3 sends with a fixed 0.1 time-unit delay between them (the send
timestamps are `c`, `c+0.1`, `c+0.2`), each over a freshly opened transport
handle (3 socket creations, one per send), and the three datagrams are fresh
serialisations of the same measurement: all fields — `sensor_id`,
`sensor_type`, `measurement_id`, `temperature`, `humidity` — are identical
across the three, except that `sensor_time` is re-read at each send and may
differ when a whole-second boundary is crossed. -/
theorem C2_triplicate_send_amended (env : Env) (cause : ResetCause)
    (hc : cause = ResetCause.PWRON_RESET ∨ cause = ResetCause.DEEPSLEEP_RESET)
    (htr : truthy (connect env (initSt env)).1 = true)
    (hset : cause = ResetCause.PWRON_RESET → env.settimeOk = true)
    (hm : env.measureOk = true) (h0 : env.sendOk 0 = true)
    (h1 : env.sendOk 1 = true) (h2 : env.sendOk 2 = true) :
    sentList (main env cause).2 =
      [((connect env (initSt env)).2.1.clock,
        mkPayload env env.temperature env.humidity env.urandom16
          ((connect env (initSt env)).2.1.clock),
        (env.cfg.SERVER_ADDR, env.cfg.SERVER_PORT)),
       ((connect env (initSt env)).2.1.clock + 1,
        mkPayload env env.temperature env.humidity env.urandom16
          ((connect env (initSt env)).2.1.clock + 1),
        (env.cfg.SERVER_ADDR, env.cfg.SERVER_PORT)),
       ((connect env (initSt env)).2.1.clock + 2,
        mkPayload env env.temperature env.humidity env.urandom16
          ((connect env (initSt env)).2.1.clock + 2),
        (env.cfg.SERVER_ADDR, env.cfg.SERVER_PORT))]
    ∧ nOpen (main env cause).2 = 3
    ∧ (∀ t1 t2 : Nat,
        (mkPayload env env.temperature env.humidity env.urandom16 t1).sensor_id =
          (mkPayload env env.temperature env.humidity env.urandom16 t2).sensor_id ∧
        (mkPayload env env.temperature env.humidity env.urandom16 t1).sensor_type =
          (mkPayload env env.temperature env.humidity env.urandom16 t2).sensor_type ∧
        (mkPayload env env.temperature env.humidity env.urandom16 t1).measurement_id =
          (mkPayload env env.temperature env.humidity env.urandom16 t2).measurement_id ∧
        (mkPayload env env.temperature env.humidity env.urandom16 t1).temperature =
          (mkPayload env env.temperature env.humidity env.urandom16 t2).temperature ∧
        (mkPayload env env.temperature env.humidity env.urandom16 t1).humidity =
          (mkPayload env env.temperature env.humidity env.urandom16 t2).humidity) := by
  refine ⟨main_sentList_ok env cause hc htr hset hm h0 h1 h2, ?_,
    fun t1 t2 => ⟨rfl, rfl, rfl, rfl, rfl⟩⟩
  have hz := connect_countP_zero env (initSt env) Event.isOpen
    (fun _ => rfl) (fun _ => rfl)
  rcases hc with rfl | rfl
  · rw [main_tr_ok_pwron env htr (hset rfl) hm h0 h1 h2]
    simp [nOpen, List.countP_append, List.countP_cons, Event.isOpen, sendBlock, hz]
  · rw [main_tr_ok_ds env htr hm h0 h1 h2]
    simp [nOpen, List.countP_append, List.countP_cons, Event.isOpen, sendBlock, hz]

/-- Witness for C2 (amended) at a concrete all-success environment. -/
theorem C2_triplicate_send_amended_witness :
    sentList (main envGood ResetCause.DEEPSLEEP_RESET).2 =
      [((connect envGood (initSt envGood)).2.1.clock,
        mkPayload envGood envGood.temperature envGood.humidity envGood.urandom16
          ((connect envGood (initSt envGood)).2.1.clock),
        (envGood.cfg.SERVER_ADDR, envGood.cfg.SERVER_PORT)),
       ((connect envGood (initSt envGood)).2.1.clock + 1,
        mkPayload envGood envGood.temperature envGood.humidity envGood.urandom16
          ((connect envGood (initSt envGood)).2.1.clock + 1),
        (envGood.cfg.SERVER_ADDR, envGood.cfg.SERVER_PORT)),
       ((connect envGood (initSt envGood)).2.1.clock + 2,
        mkPayload envGood envGood.temperature envGood.humidity envGood.urandom16
          ((connect envGood (initSt envGood)).2.1.clock + 2),
        (envGood.cfg.SERVER_ADDR, envGood.cfg.SERVER_PORT))] ∧
    nOpen (main envGood ResetCause.DEEPSLEEP_RESET).2 = 3 := by
  have h := C2_triplicate_send_amended envGood ResetCause.DEEPSLEEP_RESET
    (Or.inr rfl) (by decide) (fun h => ResetCause.noConfusion h) (by decide)
    (by decide) (by decide) (by decide)
  exact ⟨h.1, h.2.1⟩

/-- C3 counterexample: on a cold start where the second `sendto` raises a
transport error, the remaining send does NOT happen (only 1 datagram was
handed to the network) and the cycle aborts with the uncaught exception — no
terminal sleep occurs — contrary to the claim that the remaining sends and
the sleep still occur. -/
theorem C3_counterexample :
    (main envSendFail1 ResetCause.PWRON_RESET).1 = Outcome.crashed ∧
    nSend (main envSendFail1 ResetCause.PWRON_RESET).2 = 1 := by
  decide

/-- C3 amended: `s.sendto` is not guarded by any exception handler, so a
local transport error on the i-th of the three sends (the earlier ones
succeeding) propagates: exactly the `i` earlier datagrams are sent, the
remaining sends are skipped, and the cycle aborts with an uncaught exception
instead of reaching the terminal sleep. -/
theorem C3_send_error_aborts_cycle (env : Env) (cause : ResetCause)
    (hc : cause = ResetCause.PWRON_RESET ∨ cause = ResetCause.DEEPSLEEP_RESET)
    (htr : truthy (connect env (initSt env)).1 = true)
    (hset : cause = ResetCause.PWRON_RESET → env.settimeOk = true)
    (hm : env.measureOk = true) (i : Nat) (hi : i < 3)
    (hbef : ∀ j, j < i → env.sendOk j = true) (hfail : env.sendOk i = false) :
    (main env cause).1 = Outcome.crashed ∧ nSend (main env cause).2 = i := by
  have hs := connect_sends0 env
  have hz := connect_countP_zero env (initSt env) Event.isSend
    (fun _ => rfl) (fun _ => rfl)
  constructor
  · rw [main_out_eq env cause hc]
    have hcy : cycleOk env cause = false := by
      interval_cases i <;> simp [cycleOk, hfail]
    rw [hcy]
    simp [htr]
  · interval_cases i
    · have hf0 : env.sendOk (connect env (initSt env)).2.1.sends = false := by
        rw [hs]; exact hfail
      have hsm : (send_measurement env (env.cfg.SERVER_ADDR, env.cfg.SERVER_PORT)
          (connect env (initSt env)).2.1).2.2 =
          [Event.measureCall, Event.mkMeasurement env.urandom16,
           Event.openSocket, Event.sendErr] := by
        rw [sm_eq env (env.cfg.SERVER_ADDR, env.cfg.SERVER_PORT)
          (connect env (initSt env)).2.1 hm]
        rw [sendLoop_succ_false env (env.cfg.SERVER_ADDR, env.cfg.SERVER_PORT)
          env.temperature env.humidity env.urandom16 2
          (connect env (initSt env)).2.1 hf0]
      rcases hc with rfl | rfl
      · rw [main_pwron_tr env htr (hset rfl), hsm]
        simp [nSend, List.countP_append, List.countP_cons, Event.isSend, hz]
      · rw [main_ds_tr env htr, hsm]
        simp [nSend, List.countP_append, List.countP_cons, Event.isSend, hz]
    · have hb0 : env.sendOk (connect env (initSt env)).2.1.sends = true := by
        rw [hs]; exact hbef 0 (by omega)
      have hf1 : env.sendOk ((connect env (initSt env)).2.1.sends + 1) = false := by
        rw [hs]; exact hfail
      have hsm : (send_measurement env (env.cfg.SERVER_ADDR, env.cfg.SERVER_PORT)
          (connect env (initSt env)).2.1).2.2 =
          Event.measureCall :: Event.mkMeasurement env.urandom16 ::
            [Event.openSocket,
             Event.sendto (connect env (initSt env)).2.1.clock
               (mkPayload env env.temperature env.humidity env.urandom16
                 (connect env (initSt env)).2.1.clock)
               (env.cfg.SERVER_ADDR, env.cfg.SERVER_PORT),
             Event.sleepTenths 1, Event.openSocket, Event.sendErr] := by
        rw [sm_eq env (env.cfg.SERVER_ADDR, env.cfg.SERVER_PORT)
          (connect env (initSt env)).2.1 hm]
        rw [sendLoop_fail1 env (env.cfg.SERVER_ADDR, env.cfg.SERVER_PORT)
          env.temperature env.humidity env.urandom16
          (connect env (initSt env)).2.1 hb0 hf1]
      rcases hc with rfl | rfl
      · rw [main_pwron_tr env htr (hset rfl), hsm]
        simp [nSend, List.countP_append, List.countP_cons, Event.isSend, hz]
      · rw [main_ds_tr env htr, hsm]
        simp [nSend, List.countP_append, List.countP_cons, Event.isSend, hz]
    · have hb0 : env.sendOk (connect env (initSt env)).2.1.sends = true := by
        rw [hs]; exact hbef 0 (by omega)
      have hb1 : env.sendOk ((connect env (initSt env)).2.1.sends + 1) = true := by
        rw [hs]; exact hbef 1 (by omega)
      have hf2 : env.sendOk ((connect env (initSt env)).2.1.sends + 2) = false := by
        rw [hs]; exact hfail
      have hsm : (send_measurement env (env.cfg.SERVER_ADDR, env.cfg.SERVER_PORT)
          (connect env (initSt env)).2.1).2.2 =
          Event.measureCall :: Event.mkMeasurement env.urandom16 ::
            [Event.openSocket,
             Event.sendto (connect env (initSt env)).2.1.clock
               (mkPayload env env.temperature env.humidity env.urandom16
                 (connect env (initSt env)).2.1.clock)
               (env.cfg.SERVER_ADDR, env.cfg.SERVER_PORT),
             Event.sleepTenths 1,
             Event.openSocket,
             Event.sendto ((connect env (initSt env)).2.1.clock + 1)
               (mkPayload env env.temperature env.humidity env.urandom16
                 ((connect env (initSt env)).2.1.clock + 1))
               (env.cfg.SERVER_ADDR, env.cfg.SERVER_PORT),
             Event.sleepTenths 1, Event.openSocket, Event.sendErr] := by
        rw [sm_eq env (env.cfg.SERVER_ADDR, env.cfg.SERVER_PORT)
          (connect env (initSt env)).2.1 hm]
        rw [sendLoop_fail2 env (env.cfg.SERVER_ADDR, env.cfg.SERVER_PORT)
          env.temperature env.humidity env.urandom16
          (connect env (initSt env)).2.1 hb0 hb1 hf2]
      rcases hc with rfl | rfl
      · rw [main_pwron_tr env htr (hset rfl), hsm]
        simp [nSend, List.countP_append, List.countP_cons, Event.isSend, hz]
      · rw [main_ds_tr env htr, hsm]
        simp [nSend, List.countP_append, List.countP_cons, Event.isSend, hz]

/-- Witness for C3 (amended) at a concrete environment: when the second send
fails on a timer wake, exactly one datagram went out and the run crashed. -/
theorem C3_send_error_aborts_cycle_witness :
    (main envSendFail1 ResetCause.DEEPSLEEP_RESET).1 = Outcome.crashed ∧
    nSend (main envSendFail1 ResetCause.DEEPSLEEP_RESET).2 = 1 :=
  C3_send_error_aborts_cycle envSendFail1 ResetCause.DEEPSLEEP_RESET (Or.inr rfl)
    (by decide) (fun h => ResetCause.noConfusion h) (by decide) 1 (by decide)
    (by decide) (by decide)

/-- C6 counterexample: connect returns true and the sensor read would
succeed, yet — the first `sendto` raising a transport error — zero datagrams
are sent, not the claimed exactly 3. -/
theorem C6_counterexample :
    truthy (connect envSendFail0 (initSt envSendFail0)).1 = true ∧
    envSendFail0.measureOk = true ∧
    nSend (main envSendFail0 ResetCause.DEEPSLEEP_RESET).2 = 0 := by
  decide

/-- C6 amended: for every cycle in which `connect` returns true and,
additionally, the cold-start time sync, the sensor read and all three sends
succeed, exactly one Measurement is constructed and exactly 3 datagrams are
sent to `(SERVER_ADDR, SERVER_PORT)`, each carrying the identical
`measurement_id` — the hex encoding of the 16 bytes drawn from
`uos.urandom(16)` that cycle — with 0.1 time-units between consecutive sends
(timestamps `c`, `c+0.1`, `c+0.2`). -/
theorem C6_exactly_three_datagrams (env : Env) (cause : ResetCause)
    (hc : cause = ResetCause.PWRON_RESET ∨ cause = ResetCause.DEEPSLEEP_RESET)
    (htr : truthy (connect env (initSt env)).1 = true)
    (hset : cause = ResetCause.PWRON_RESET → env.settimeOk = true)
    (hm : env.measureOk = true) (h0 : env.sendOk 0 = true)
    (h1 : env.sendOk 1 = true) (h2 : env.sendOk 2 = true) :
    nMk (main env cause).2 = 1 ∧
    nSend (main env cause).2 = 3 ∧
    (sentList (main env cause).2).map (fun s => s.1) =
      [(connect env (initSt env)).2.1.clock,
       (connect env (initSt env)).2.1.clock + 1,
       (connect env (initSt env)).2.1.clock + 2] ∧
    (∀ x ∈ sentList (main env cause).2,
      x.2.2 = (env.cfg.SERVER_ADDR, env.cfg.SERVER_PORT) ∧
      x.2.1.measurement_id = hexlify env.urandom16) := by
  have hsl := main_sentList_ok env cause hc htr hset hm h0 h1 h2
  have hzMk := connect_countP_zero env (initSt env) Event.isMk
    (fun _ => rfl) (fun _ => rfl)
  have hzSend := connect_countP_zero env (initSt env) Event.isSend
    (fun _ => rfl) (fun _ => rfl)
  refine ⟨?_, ?_, ?_, ?_⟩
  · rcases hc with rfl | rfl
    · rw [main_tr_ok_pwron env htr (hset rfl) hm h0 h1 h2]
      simp [nMk, List.countP_append, List.countP_cons, Event.isMk, sendBlock, hzMk]
    · rw [main_tr_ok_ds env htr hm h0 h1 h2]
      simp [nMk, List.countP_append, List.countP_cons, Event.isMk, sendBlock, hzMk]
  · rcases hc with rfl | rfl
    · rw [main_tr_ok_pwron env htr (hset rfl) hm h0 h1 h2]
      simp [nSend, List.countP_append, List.countP_cons, Event.isSend, sendBlock, hzSend]
    · rw [main_tr_ok_ds env htr hm h0 h1 h2]
      simp [nSend, List.countP_append, List.countP_cons, Event.isSend, sendBlock, hzSend]
  · rw [hsl]
    rfl
  · rw [hsl]
    intro x hx
    simp only [List.mem_cons, List.not_mem_nil, or_false] at hx
    rcases hx with rfl | rfl | rfl <;> exact ⟨rfl, rfl⟩

/-- Witness for C6 (amended) at a concrete all-success environment. -/
theorem C6_exactly_three_datagrams_witness :
    nMk (main envGood ResetCause.DEEPSLEEP_RESET).2 = 1 ∧
    nSend (main envGood ResetCause.DEEPSLEEP_RESET).2 = 3 := by
  have h := C6_exactly_three_datagrams envGood ResetCause.DEEPSLEEP_RESET
    (Or.inr rfl) (by decide) (fun h => ResetCause.noConfusion h) (by decide)
    (by decide) (by decide) (by decide)
  exact ⟨h.1, h.2.1⟩

end SensorFirmware
